import Mathlib

/-!
Shallow embedding of the pisky binding layer (src/lib.rs, src/single_threaded.rs,
src/multi_threaded.rs, src/shard_helpers.rs, src/logging.rs, src/corruption.rs),
a Python binding over the disky record-storage engine.

The binding code under src/ is embedded directly.  The disky engine itself
(record codec, single-shard RecordReader/RecordWriter, parallel reader queue,
write promises) is not part of src/; those parts are modelled from the spec
(sections 3, 4.1, 4.2, 4.3) and each such definition carries a doc comment
saying so.  Records are byte sequences modelled as List Nat; a file is the
list of frames it contains; errors are strings (mirroring the Rust side where
every engine error is converted with e.to_string()).
-/

namespace Pisky

/-- The engine-level corruption policy (disky reader::CorruptionStrategy). -/
inductive CorruptionStrategy where
  | error
  | recover
deriving DecidableEq, Repr

/-- Translated from src/corruption.rs: the Python-visible two-valued enum. -/
inductive PyCorruptionStrategy where
  | Error
  | Recover
deriving DecidableEq, Repr

/-- Modelled from the spec (section 3, Frame): the on-disk unit is a frame that
either decodes to its payload (well-formed length prefix, compression tag and
integrity marker) or is detected as corrupt at frame granularity. -/
inductive FrameUnit where
  | good (payload : List Nat)
  | corrupt
deriving DecidableEq, Repr

/-- A shard file: a concatenation of zero or more frames with no padding. -/
abbrev DFile := List FrameUnit

/-- Modelled from the spec (section 4.1): the record codec encode step producing
one well-formed frame holding the payload. -/
def encodeFrame (payload : List Nat) : FrameUnit := .good payload

/-- Modelled from the spec (section 4.3): disky RecordReader::next_record.
End-of-file exactly at a frame boundary is a clean end-of-stream; a well-formed
frame yields its record; a corrupt frame is fatal under the Error policy and is
skipped under the Recover policy. Returns the value together with the remaining
file. -/
def diskyNextRecord : CorruptionStrategy → DFile → Except String (Option (List Nat) × DFile)
  | _, [] => .ok (none, [])
  | _, .good p :: rest => .ok (some p, rest)
  | .error, .corrupt :: _ => .error "corrupt frame"
  | .recover, .corrupt :: rest => diskyNextRecord .recover rest

/-- Modelled from the spec (section 3): disky RecordReaderConfig::default() binds
the Error corruption policy. -/
def defaultCorruptionStrategy : CorruptionStrategy := .error

/-- Translated from src/single_threaded.rs lines 73-80 (and the identical match
in count_records): Some(Recover) selects the Recover policy; None and
Some(Error) both fall to the default configuration. -/
def readerStrategy : Option PyCorruptionStrategy → CorruptionStrategy
  | some .Recover => .recover
  | _ => defaultCorruptionStrategy

/-- State of a PyRecordReader: the bound policy and the unread rest of the file. -/
structure ReaderState where
  strat : CorruptionStrategy
  frames : DFile
deriving DecidableEq, Repr

/-- Translated from src/single_threaded.rs PyRecordReader::new: the policy is
bound once, at construction. -/
def pyRecordReaderNew (file : DFile) (corruptionStrategy : Option PyCorruptionStrategy) :
    ReaderState :=
  ⟨readerStrategy corruptionStrategy, file⟩

/-- Translated from src/single_threaded.rs lines 111-121: Record maps to Some,
EOF maps to None, an engine error is surfaced as an error. -/
def pyNextRecordSingle (r : ReaderState) : Except String (Option (List Nat) × ReaderState) :=
  match diskyNextRecord r.strat r.frames with
  | .ok (some bytes, rest) => .ok (some bytes, ⟨r.strat, rest⟩)
  | .ok (none, rest) => .ok (none, ⟨r.strat, rest⟩)
  | .error e => .error e

/-- The full scan of a file by iterated next_record under a policy, returning
the decoded records and the final (always fully consumed) remainder.
readAllFrames_step below shows this is the iteration of diskyNextRecord. -/
def readAllFrames (strat : CorruptionStrategy) : DFile → Except String (List (List Nat) × DFile)
  | [] => .ok ([], [])
  | .good p :: rest => Except.map (fun pr => (p :: pr.1, pr.2)) (readAllFrames strat rest)
  | .corrupt :: rest =>
      match strat with
      | .error => .error "corrupt frame"
      | .recover => readAllFrames .recover rest

/-- Translated from src/single_threaded.rs lines 99-106: the counting loop of
PyRecordReader::count_records, with the call to the engine next_record unfolded
structurally (countLoop_step proves the loop equation). -/
def countLoop (strat : CorruptionStrategy) : DFile → Nat → Except String Nat
  | [], acc => .ok acc
  | .good _ :: rest, acc => countLoop strat rest (acc + 1)
  | .corrupt :: rest, acc =>
      match strat with
      | .error => .error "corrupt frame"
      | .recover => countLoop .recover rest acc

/-- Translated from src/single_threaded.rs lines 86-109: count_records opens the
file, builds a reader bound to the policy chosen by the same construction match,
and runs the counting loop from zero. -/
def pyCountRecords (file : DFile) (corruptionStrategy : Option PyCorruptionStrategy) :
    Except String Nat :=
  countLoop (readerStrategy corruptionStrategy) file 0

/-- State of the single-shard writer: flushed file contents, unflushed buffer,
and the closed flag. -/
structure WriterState where
  file : DFile
  buffer : DFile
  closed : Bool
deriving DecidableEq, Repr

/-- Modelled from the spec (section 4.2): write_record appends one encoded frame
to the write buffer; writing after close is an invalid-state error. -/
def diskyWriteRecord (w : WriterState) (payload : List Nat) : Except String WriterState :=
  if w.closed then .error "writer closed"
  else .ok { w with buffer := w.buffer ++ [encodeFrame payload] }

/-- Modelled from the spec (section 4.2): flush pushes buffered frames to the file. -/
def diskyFlush (w : WriterState) : WriterState :=
  { w with file := w.file ++ w.buffer, buffer := [] }

/-- Modelled from the spec (section 4.2): close flushes and releases the handle. -/
def diskyClose (w : WriterState) : WriterState :=
  { diskyFlush w with closed := true }

/-- A fresh writer over a newly created (hence empty) file. -/
def newWriterState : WriterState := ⟨[], [], false⟩

/-- Translated from src/single_threaded.rs lines 20-26: PyRecordWriter::new runs
File::create on the path, which creates the file if missing and truncates it to
empty otherwise, then wraps a fresh RecordWriter over it.  The constructor takes
only the path: this embedding mirrors the source signature, which has no append
parameter.  The filesystem is a map from paths to file contents. -/
def pyRecordWriterNew (path : String) (fs : String → Option DFile) :
    (String → Option DFile) × WriterState :=
  (fun q => if q = path then some [] else fs q, newWriterState)

/-- Translated from src/single_threaded.rs lines 28-32. -/
def pyWriteRecordSingle (w : WriterState) (payload : List Nat) : Except String WriterState :=
  diskyWriteRecord w payload

/-- Writing a sequence of records through PyRecordWriter.write_record. -/
def writeAll : WriterState → List (List Nat) → Except String WriterState
  | w, [] => .ok w
  | w, d :: ds =>
      match pyWriteRecordSingle w d with
      | .ok w2 => writeAll w2 ds
      | .error e => .error e

/-- Modelled from the spec (section 3, Queue Entry): one value produced by the
parallel reader's shared queue (disky DiskyParallelPiece). -/
inductive DiskyParallelPiece where
  | record (bytes : List Nat)
  | eof
  | shardFinished
deriving DecidableEq, Repr

/-- One result of a call to the parallel reader's read(). -/
abbrev ReadResult := Except String DiskyParallelPiece

/-- Modelled from the spec (section 4.6): the sequence of values successive
read() calls on a PyMultiThreadedReader would return. -/
abbrev PStream := List ReadResult

/-- Whether a read result is the internal ShardFinished control marker. -/
def isShardFinished : ReadResult → Bool
  | .ok .shardFinished => true
  | _ => false

/-- Translated from src/multi_threaded.rs lines 343-364 (identical to
src/lib.rs lines 329-350): the next_record wrapper loop over read().  A stream
prefix that is exhausted without reaching a Record, EOF or error models a read
that is still blocked, so the call has not returned: that is the none case. -/
def pyNextRecordMT : PStream → Option (Except String (Option (List Nat)))
  | [] => none
  | .ok (.record b) :: _ => some (.ok (some b))
  | .ok .eof :: _ => some (.ok none)
  | .ok .shardFinished :: rest => pyNextRecordMT rest
  | .error e :: _ => some (.error e)

/-- Translated from src/multi_threaded.rs lines 298-306 (the identical loop
appears at lines 230-238): the counting loop of count_records_with_shard_paths
and count_records_with_shards over successive read() results. -/
def countLoopMT : PStream → Nat → Option (Except String Nat)
  | [], _ => none
  | .ok (.record _) :: rest, acc => countLoopMT rest (acc + 1)
  | .ok .eof :: _, acc => some (.ok acc)
  | .ok .shardFinished :: rest, acc => countLoopMT rest acc
  | .error e :: _, _ => some (.error e)

/-- What the wrapper returns for one caller-visible read result; the
shardFinished case is unreachable for the head of a stream with its leading
markers dropped, as the absorption theorem shows. -/
def pieceResult : ReadResult → Except String (Option (List Nat))
  | .ok (.record b) => .ok (some b)
  | .ok .eof => .ok none
  | .ok .shardFinished => .ok none
  | .error e => .error e

/-- The corruption-relevant part of disky ParallelReaderConfig: the per-shard
reader configuration holding the bound policy. -/
structure ParallelReaderConfigM where
  strat : CorruptionStrategy
deriving DecidableEq, Repr

/-- Translated from src/shard_helpers.rs lines 26-35 (identical to src/lib.rs
lines 282-290): start from the default configuration and switch the policy to
Recover exactly when Some(Recover) was passed. -/
def mkParallelReaderConfig (corruptionStrategy : Option PyCorruptionStrategy) :
    ParallelReaderConfigM :=
  let base : ParallelReaderConfigM := ⟨defaultCorruptionStrategy⟩
  match corruptionStrategy with
  | some .Recover => { base with strat := .recover }
  | _ => base

/-- The usize modulus: the queue-size arithmetic in the source is done on
usize, which wraps modulo 2 ^ 64 in release builds. -/
def usizeMod : Nat := 2 ^ 64

/-- One wrapping usize multiplication. -/
def usizeMul (a b : Nat) : Nat := a * b % usizeMod

/-- Modelled from the spec (section 9, open question): the default worker-thread
count of disky MultiThreadedReaderConfig::default() is implementation-chosen;
no claim depends on its value. -/
def defaultWorkerThreadsMT : Nat := 4

/-- Modelled from the spec: the default queue byte budget of disky
MultiThreadedReaderConfig::default(); no claim depends on its value. -/
def defaultQueueSizeBytesMT : Nat := 8 * 1024 * 1024

/-- The multi-threaded reader configuration assembled by the binding. -/
structure MultiThreadedReaderConfigM where
  readerConfig : ParallelReaderConfigM
  workerThreads : Nat
  queueSizeBytes : Nat
deriving DecidableEq, Repr

/-- Translated from src/shard_helpers.rs lines 38-68 (identical to src/lib.rs
lines 293-320): the four-way match on (worker_threads, queue_size_mb).  A
supplied megabyte count is converted with queue_mb * 1024 * 1024 in usize
arithmetic; with worker threads supplied and no queue size, the budget is the
8 MB constant; with neither, the default configuration is used with its
reader_config replaced by the corruption-aware one. -/
def mkMultiThreadedReaderConfig (corruptionStrategy : Option PyCorruptionStrategy)
    (workerThreads : Option Nat) (queueSizeMb : Option Nat) : MultiThreadedReaderConfigM :=
  let prc := mkParallelReaderConfig corruptionStrategy
  match workerThreads, queueSizeMb with
  | some threads, some mb => ⟨prc, threads, usizeMul (usizeMul mb 1024) 1024⟩
  | some threads, none => ⟨prc, threads, 8 * 1024 * 1024⟩
  | none, some mb => ⟨prc, defaultWorkerThreadsMT, usizeMul (usizeMul mb 1024) 1024⟩
  | none, none => ⟨prc, defaultWorkerThreadsMT, defaultQueueSizeBytesMT⟩

/-- Compression selector of disky (compression::CompressionType). -/
inductive CompressionType where
  | None
  | Zstd
deriving DecidableEq, Repr

/-- The compression-relevant part of disky writer::RecordWriterConfig. -/
structure RecordWriterConfig where
  compression : CompressionType
deriving DecidableEq, Repr

/-- Modelled from the spec (section 4.1): the default record-writer
configuration; compression defaults to none.  The claim about the omitted
selector only needs that omission yields this default, whatever it is. -/
def recordWriterConfigDefault : RecordWriterConfig := ⟨CompressionType.None⟩

/-- Translated from src/multi_threaded.rs lines 58-65: the compression match of
PyMultiThreadedWriter::new_with_shards.  A Rust match over string literals is a
sequence of equality tests, embedded as such. -/
def mkRecordWriterConfig (compression : Option String) : Except String RecordWriterConfig :=
  match compression with
  | some comp =>
      if comp = "zstd" then .ok ⟨CompressionType.Zstd⟩
      else if comp = "none" then .ok ⟨CompressionType.None⟩
      else
        .error ("Unsupported compression type: \x27" ++ comp ++
          "\x27. Supported types: \x27zstd\x27, \x27none\x27")
  | none => .ok recordWriterConfigDefault

/-- Translated from src/multi_threaded.rs lines 102-120 (identical to
src/lib.rs lines 186-204): py_write_record.  enq is the outcome of
writer.write_record (a promise on success, identified abstractly by a number);
wait is the promise resolution, modelled from the spec (section 3,
WriteHandle): it resolves to success or to the first error captured by the
owning worker.  The source awaits the promise and propagates its error. -/
def pyWriteRecordMT (enq : Except String Nat) (wait : Nat → Except String Unit) :
    Except String Unit :=
  match enq with
  | .ok promise =>
      match wait promise with
      | .ok _ => .ok ()
      | .error e => .error e
  | .error e => .error e

/-- Translated from src/single_threaded.rs lines 50-58: PyRecordWriter.__exit__
calls close(), propagates its error, and returns false (never suppressing a
propagating exception).  The three exception-info arguments are ignored by the
source; only their presence or absence could matter, so they are modelled as
Option Unit. -/
def pyExitRecordWriter (closeResult : Except String Unit)
    (_excType _excValue _traceback : Option Unit) : Except String Bool :=
  match closeResult with
  | .ok _ => .ok false
  | .error e => .error e

/-- Translated from src/multi_threaded.rs lines 162-171:
PyMultiThreadedWriter.__exit__, same shape. -/
def pyExitMTWriter (closeResult : Except String Unit)
    (_excType _excValue _traceback : Option Unit) : Except String Bool :=
  match closeResult with
  | .ok _ => .ok false
  | .error e => .error e

/-- Translated from src/multi_threaded.rs lines 405-414:
PyMultiThreadedReader.__exit__, same shape. -/
def pyExitMTReader (closeResult : Except String Unit)
    (_excType _excValue _traceback : Option Unit) : Except String Bool :=
  match closeResult with
  | .ok _ => .ok false
  | .error e => .error e

/-- The log levels of the log crate's LevelFilter. -/
inductive LogLevel where
  | trace
  | debug
  | info
  | warn
  | error
  | off
deriving DecidableEq, Repr

/-- The process-wide logging state: whether a global logger has been installed,
and the filter level it was installed with. -/
structure LoggerState where
  installed : Bool
  level : LogLevel
deriving DecidableEq, Repr

/-- Models env_logger Builder::try_init with the given filter level, per its
documented behavior: it installs the global logger only when none is installed
yet (log::set_logger succeeds at most once per process); otherwise it leaves
the installed logger - and hence the effective filter level - unchanged and
returns an error.  The Bool reports success. -/
def tryInit (lvl : LogLevel) (st : LoggerState) : LoggerState × Bool :=
  if st.installed then (st, false) else (⟨true, lvl⟩, true)

/-- Translated from src/logging.rs lines 7-13 (identical to src/lib.rs lines
404-410): init_logger builds a logger with the level and calls try_init,
discarding its result with a wildcard let. -/
def initLogger (lvl : LogLevel) (st : LoggerState) : LoggerState :=
  (tryInit lvl st).1

/-- Translated from src/lib.rs line 416: module import runs
init_logger(LevelFilter::Info). -/
def moduleInit (st : LoggerState) : LoggerState := initLogger .info st

/-- ASCII lowercasing of one character. -/
def lowerChar (c : Char) : Char :=
  if 'A' ≤ c ∧ c ≤ 'Z' then Char.ofNat (c.toNat + 32) else c

/-- Models Rust str::to_lowercase as used by set_log_level: on the comparisons
against the ASCII level names the full Unicode lowercasing and the ASCII one
coincide. -/
def toLowerAscii (s : String) : String := String.mk (s.data.map lowerChar)

/-- Translated from src/logging.rs lines 18-31 (identical to src/lib.rs lines
427-440): the level-name match on the lowercased input; a Rust match over
string literals is a sequence of equality tests, embedded as such. -/
def parseLogLevel (s : String) : Option LogLevel :=
  let l := toLowerAscii s
  if l = "trace" then some .trace
  else if l = "debug" then some .debug
  else if l = "info" then some .info
  else if l = "warn" then some .warn
  else if l = "warning" then some .warn
  else if l = "error" then some .error
  else if l = "off" then some .off
  else none

/-- Translated from src/logging.rs lines 17-35 (identical to src/lib.rs lines
426-444): set_log_level parses the name, fails with the descriptive error on an
unknown name, and otherwise calls init_logger with the parsed level. -/
def setLogLevel (s : String) (st : LoggerState) : Except String LoggerState :=
  match parseLogLevel s with
  | some lvl => .ok (initLogger lvl st)
  | none =>
      .error ("Invalid log level: " ++ s ++
        ". Valid levels are: trace, debug, info, warn, error, off")

/-! Shared lemmas. -/

/-- The structural readAllFrames satisfies the loop equation of iterating the
engine next_record: it stops cleanly on EOF, conses on a record, and propagates
the error. -/
theorem readAllFrames_step (strat : CorruptionStrategy) (file : DFile) :
    readAllFrames strat file =
      match diskyNextRecord strat file with
      | .ok (some p, rest) => Except.map (fun pr => (p :: pr.1, pr.2)) (readAllFrames strat rest)
      | .ok (none, _) => .ok ([], [])
      | .error e => .error e := by
  induction file with
  | nil => cases strat <;> rfl
  | cons head rest ih =>
    cases head with
    | good p => cases strat <;> rfl
    | corrupt =>
      cases strat with
      | error => rfl
      | recover =>
        simpa [readAllFrames, diskyNextRecord] using ih

/-- The structural countLoop satisfies the loop equation of the source counting
loop: call next_record; on a record bump the count, on EOF stop with the count,
on an error return it. -/
theorem countLoop_step (strat : CorruptionStrategy) (file : DFile) (acc : Nat) :
    countLoop strat file acc =
      match diskyNextRecord strat file with
      | .ok (some _, rest) => countLoop strat rest (acc + 1)
      | .ok (none, _) => .ok acc
      | .error e => .error e := by
  induction file with
  | nil => cases strat <;> rfl
  | cons head rest ih =>
    cases head with
    | good p => cases strat <;> rfl
    | corrupt =>
      cases strat with
      | error => rfl
      | recover =>
        simpa [countLoop, diskyNextRecord] using ih

/-- Writing a batch through an open writer appends the encoded frames to the
buffer and never fails. -/
theorem writeAll_open (ds : List (List Nat)) (f b : DFile) :
    writeAll ⟨f, b, false⟩ ds = .ok ⟨f, b ++ List.map encodeFrame ds, false⟩ := by
  induction ds generalizing b with
  | nil => simp [writeAll]
  | cons d ds ih =>
    simp [writeAll, pyWriteRecordSingle, diskyWriteRecord, ih]

/-- Scanning a file of well-formed frames yields exactly the encoded records,
in order, consuming the whole file, under either policy. -/
theorem readAllFrames_good (strat : CorruptionStrategy) (rs : List (List Nat)) :
    readAllFrames strat (List.map encodeFrame rs) = .ok (rs, []) := by
  induction rs with
  | nil => rfl
  | cons r rs ih =>
    simp [encodeFrame, readAllFrames, ih, Except.map]

/-- The counting loop is the length of the full scan, shifted by the
accumulator. -/
theorem countLoop_readAll (strat : CorruptionStrategy) (file : DFile) (acc : Nat) :
    countLoop strat file acc =
      Except.map (fun pr => acc + pr.1.length) (readAllFrames strat file) := by
  induction file generalizing acc with
  | nil => simp [countLoop, readAllFrames, Except.map]
  | cons head rest ih =>
    cases head with
    | good p =>
      rw [countLoop, readAllFrames, ih]
      cases readAllFrames strat rest with
      | ok pr => simp [Except.map, Nat.add_comm, Nat.add_assoc, Nat.add_left_comm]
      | error e => simp [Except.map]
    | corrupt =>
      cases strat with
      | error => simp [countLoop, readAllFrames, Except.map]
      | recover => simpa [countLoop, readAllFrames] using ih acc

/-! Claim theorems. -/

/-- C1: single-shard round-trip.  For every sequence of byte records, writing
them through PyRecordWriter.write_record into a fresh writer succeeds and
buffers exactly their encoded frames; close flushes exactly those frames to the
file; a fresh PyRecordReader over that file (default policy) scans back exactly
those records in order, consuming the whole file; next_record at the consumed
state reports clean end-of-stream (None); count_records over the file returns
their number.  In particular the concrete file for [b"a", b"", b"longer
payload"] reads back as exactly those three records and counts 3. -/
theorem singleShard_roundTrip (records : List (List Nat)) :
    writeAll newWriterState records = Except.ok ⟨[], List.map encodeFrame records, false⟩ ∧
    (diskyClose ⟨[], List.map encodeFrame records, false⟩).file =
      List.map encodeFrame records ∧
    readAllFrames (pyRecordReaderNew (List.map encodeFrame records) none).strat
        (pyRecordReaderNew (List.map encodeFrame records) none).frames =
      Except.ok (records, []) ∧
    pyNextRecordSingle ⟨readerStrategy none, []⟩ =
      Except.ok (none, ⟨readerStrategy none, []⟩) ∧
    pyCountRecords (List.map encodeFrame records) none = Except.ok records.length ∧
    readAllFrames (readerStrategy none)
        (List.map encodeFrame
          [[97], [], [108, 111, 110, 103, 101, 114, 32, 112, 97, 121, 108, 111, 97, 100]]) =
      Except.ok
        ([[97], [], [108, 111, 110, 103, 101, 114, 32, 112, 97, 121, 108, 111, 97, 100]], []) ∧
    pyCountRecords
        (List.map encodeFrame
          [[97], [], [108, 111, 110, 103, 101, 114, 32, 112, 97, 121, 108, 111, 97, 100]])
        none =
      Except.ok 3 := by
  refine ⟨?_, ?_, ?_, rfl, ?_, ?_, rfl⟩
  · simpa using writeAll_open records [] []
  · simp [diskyClose, diskyFlush]
  · exact readAllFrames_good _ _
  · rw [pyCountRecords, countLoop_readAll, readAllFrames_good]
    simp [Except.map]
  · exact readAllFrames_good _ _

/-- C2: static record counting.  count_records builds a reader bound to the
policy chosen by the same construction match and runs the counting loop on the
whole file from zero; its result is exactly the number of records a full scan
under that policy decodes (record contents are dropped by taking the length);
and it errors exactly when the full scan by next_record errors under that
policy. -/
theorem countRecords_correct (file : DFile) (cs : Option PyCorruptionStrategy) :
    pyCountRecords file cs =
      countLoop (pyRecordReaderNew file cs).strat (pyRecordReaderNew file cs).frames 0 ∧
    pyCountRecords file cs =
      Except.map (fun pr => pr.1.length) (readAllFrames (readerStrategy cs) file) ∧
    ∀ e, (pyCountRecords file cs = Except.error e ↔
      readAllFrames (readerStrategy cs) file = Except.error e) := by
  have hmap : pyCountRecords file cs =
      Except.map (fun pr => pr.1.length) (readAllFrames (readerStrategy cs) file) := by
    rw [pyCountRecords, countLoop_readAll]
    cases readAllFrames (readerStrategy cs) file with
    | ok pr => simp [Except.map]
    | error e => simp [Except.map]
  refine ⟨rfl, hmap, fun e => ?_⟩
  rw [hmap]
  cases readAllFrames (readerStrategy cs) file with
  | ok pr => simp [Except.map]
  | error e2 => simp [Except.map]

/-- C3: ShardFinished absorption.  The next_record wrapper of the
multi-threaded reader returns the translation of the first read() result that
is not a ShardFinished marker (and returns nothing while only markers have
arrived); that first surviving result is never a ShardFinished marker; and both
the wrapper loop and the record-counting loop step past a leading ShardFinished
marker without surfacing it. -/
theorem shardFinished_absorbed :
    (∀ s : PStream,
      pyNextRecordMT s =
        Option.map pieceResult (List.head? (List.dropWhile isShardFinished s))) ∧
    (∀ s : PStream,
      Option.all (fun r => !(isShardFinished r))
        (List.head? (List.dropWhile isShardFinished s)) = true) ∧
    (∀ s : PStream,
      pyNextRecordMT (Except.ok DiskyParallelPiece.shardFinished :: s) = pyNextRecordMT s) ∧
    (∀ (s : PStream) (acc : Nat),
      countLoopMT (Except.ok DiskyParallelPiece.shardFinished :: s) acc = countLoopMT s acc) := by
  refine ⟨fun s => ?_, fun s => ?_, fun s => rfl, fun s acc => rfl⟩
  · induction s with
    | nil => rfl
    | cons head rest ih =>
      cases head with
      | ok piece =>
        cases piece with
        | record b => simp [pyNextRecordMT, List.dropWhile, isShardFinished, pieceResult]
        | eof => simp [pyNextRecordMT, List.dropWhile, isShardFinished, pieceResult]
        | shardFinished => simpa [pyNextRecordMT, List.dropWhile, isShardFinished] using ih
      | error e => simp [pyNextRecordMT, List.dropWhile, isShardFinished, pieceResult]
  · induction s with
    | nil => rfl
    | cons head rest ih =>
      cases head with
      | ok piece =>
        cases piece with
        | record b => simp [List.dropWhile, isShardFinished]
        | eof => simp [List.dropWhile, isShardFinished]
        | shardFinished => simpa [List.dropWhile, isShardFinished] using ih
      | error e => simp [List.dropWhile, isShardFinished]

/-- C4: corruption-strategy default and equivalence.  For the single-shard
reader construction and for the shared multi-threaded construction helper,
omitting the strategy and passing Error explicitly produce identical
configurations, both the default Error policy; passing Recover produces the
Recover policy; the single reader stores the policy chosen at construction in
its state (next_record takes no policy argument), and every variant of the
multi-threaded configuration embeds the same corruption-aware reader
configuration. -/
theorem corruptionStrategy_default_equiv :
    readerStrategy none = readerStrategy (some PyCorruptionStrategy.Error) ∧
    readerStrategy none = CorruptionStrategy.error ∧
    readerStrategy (some PyCorruptionStrategy.Recover) = CorruptionStrategy.recover ∧
    mkParallelReaderConfig none = mkParallelReaderConfig (some PyCorruptionStrategy.Error) ∧
    (mkParallelReaderConfig none).strat = CorruptionStrategy.error ∧
    (mkParallelReaderConfig (some PyCorruptionStrategy.Recover)).strat =
      CorruptionStrategy.recover ∧
    (∀ (file : DFile) (cs : Option PyCorruptionStrategy),
      (pyRecordReaderNew file cs).strat = readerStrategy cs) ∧
    (∀ (cs : Option PyCorruptionStrategy) (wt mb : Option Nat),
      (mkMultiThreadedReaderConfig cs wt mb).readerConfig = mkParallelReaderConfig cs) := by
  refine ⟨rfl, rfl, rfl, rfl, rfl, rfl, fun file cs => rfl, fun cs wt mb => ?_⟩
  cases wt <;> cases mb <;> rfl

/-- C5: compression selector validation.  "none" selects no compression, "zstd"
selects zstd, omission yields the default record-writer configuration, and any
other string makes construction fail with the descriptive error naming the
unsupported value (so no writer configuration is produced for it). -/
theorem compression_selector_validation (s : String) (h1 : s ≠ "zstd") (h2 : s ≠ "none") :
    mkRecordWriterConfig (some "none") = Except.ok ⟨CompressionType.None⟩ ∧
    mkRecordWriterConfig (some "zstd") = Except.ok ⟨CompressionType.Zstd⟩ ∧
    mkRecordWriterConfig none = Except.ok recordWriterConfigDefault ∧
    mkRecordWriterConfig (some s) =
      Except.error ("Unsupported compression type: \x27" ++ s ++
        "\x27. Supported types: \x27zstd\x27, \x27none\x27") := by
  refine ⟨rfl, rfl, rfl, ?_⟩
  simp [mkRecordWriterConfig, h1, h2]

/-- Witness for C5 at the concrete unsupported value "gzip". -/
theorem compression_selector_validation_witness :
    (("gzip" : String) ≠ "zstd" ∧ ("gzip" : String) ≠ "none") ∧
    (mkRecordWriterConfig (some "none") = Except.ok ⟨CompressionType.None⟩ ∧
     mkRecordWriterConfig (some "zstd") = Except.ok ⟨CompressionType.Zstd⟩ ∧
     mkRecordWriterConfig none = Except.ok recordWriterConfigDefault ∧
     mkRecordWriterConfig (some "gzip") =
       Except.error ("Unsupported compression type: \x27" ++ "gzip" ++
         "\x27. Supported types: \x27zstd\x27, \x27none\x27")) :=
  ⟨⟨by decide, by decide⟩,
   compression_selector_validation "gzip" (by decide) (by decide)⟩

/-- C6 counterexample: the claim that a supplied queue_size_mb is always
converted to exactly queue_size_mb * 1024 * 1024 bytes fails at
queue_size_mb = 2 ^ 50: the usize multiplication wraps modulo 2 ^ 64 and the
configured byte budget is 0, not 2 ^ 70. -/
theorem queueSize_conversion_counterexample :
    (mkMultiThreadedReaderConfig none (some 1) (some (2 ^ 50))).queueSizeBytes = 0 ∧
    (mkMultiThreadedReaderConfig none (some 1) (some (2 ^ 50))).queueSizeBytes ≠
      2 ^ 50 * 1024 * 1024 := by
  constructor
  · decide
  · decide

/-- C6 (amended): whenever queue_size_mb * 1024 * 1024 fits in usize, a
supplied queue_size_mb is converted to exactly that byte budget (for every
worker-thread argument); and when queue_size_mb is omitted but worker_threads
is supplied, the byte budget is exactly 8 * 1024 * 1024. -/
theorem queueSize_conversion (cs : Option PyCorruptionStrategy) (wt : Option Nat)
    (mb threads : Nat) (h : mb * 1024 * 1024 < usizeMod) :
    (mkMultiThreadedReaderConfig cs wt (some mb)).queueSizeBytes = mb * 1024 * 1024 ∧
    (mkMultiThreadedReaderConfig cs (some threads) none).queueSizeBytes = 8 * 1024 * 1024 := by
  have h1 : mb * 1024 ≤ mb * 1024 * 1024 := Nat.le_mul_of_pos_right _ (by decide)
  have h2 : mb * 1024 < usizeMod := lt_of_le_of_lt h1 h
  refine ⟨?_, rfl⟩
  cases wt with
  | none =>
    simp [mkMultiThreadedReaderConfig, usizeMul, Nat.mod_eq_of_lt h2, Nat.mod_eq_of_lt h]
  | some t =>
    simp [mkMultiThreadedReaderConfig, usizeMul, Nat.mod_eq_of_lt h2, Nat.mod_eq_of_lt h]

/-- Witness for C6 at queue_size_mb = 1, worker_threads present and absent. -/
theorem queueSize_conversion_witness :
    (1 : Nat) * 1024 * 1024 < usizeMod ∧
    ((mkMultiThreadedReaderConfig none none (some 1)).queueSizeBytes = 1 * 1024 * 1024 ∧
     (mkMultiThreadedReaderConfig none (some 2) none).queueSizeBytes = 8 * 1024 * 1024) :=
  ⟨by decide, queueSize_conversion none none 1 2 (by decide)⟩

/-- C7: blocking write with error surfacing.  When enqueueing succeeds the
result of py_write_record is exactly the awaited promise outcome (the handle is
always awaited, never dropped); the call returns unit exactly when enqueueing
succeeded and the promise resolved to success; and it returns an error exactly
when either enqueueing failed with that error or the promise resolved to that
error. -/
theorem writeRecord_blocking_error_surfacing (enq : Except String Nat)
    (wait : Nat → Except String Unit) :
    (∀ p, pyWriteRecordMT (Except.ok p) wait = Except.map (fun _ => ()) (wait p)) ∧
    (pyWriteRecordMT enq wait = Except.ok () ↔
      ∃ p, enq = Except.ok p ∧ wait p = Except.ok ()) ∧
    (∀ e, pyWriteRecordMT enq wait = Except.error e ↔
      (enq = Except.error e ∨ ∃ p, enq = Except.ok p ∧ wait p = Except.error e)) := by
  refine ⟨fun p => ?_, ?_, fun e => ?_⟩
  · cases h : wait p <;> simp [pyWriteRecordMT, h, Except.map]
  · cases enq with
    | ok p => cases h : wait p <;> simp [pyWriteRecordMT, h]
    | error e => simp [pyWriteRecordMT]
  · cases enq with
    | ok p => cases h : wait p <;> simp [pyWriteRecordMT, h]
    | error e2 => simp [pyWriteRecordMT]

/-- C8: scoped-resource close.  Each of the three __exit__ handlers returns
exactly the close() outcome mapped to false, for every exception-info
combination - so close() is invoked on every exit path, normal or exceptional -
and when close succeeds the handler returns false, never suppressing a
propagating exception. -/
theorem scoped_exit_calls_close (c : Except String Unit) (t v tb : Option Unit) :
    pyExitRecordWriter c t v tb = Except.map (fun _ => false) c ∧
    pyExitMTWriter c t v tb = Except.map (fun _ => false) c ∧
    pyExitMTReader c t v tb = Except.map (fun _ => false) c ∧
    pyExitRecordWriter (Except.ok ()) t v tb = Except.ok false ∧
    pyExitMTWriter (Except.ok ()) t v tb = Except.ok false ∧
    pyExitMTReader (Except.ok ()) t v tb = Except.ok false := by
  cases c <;>
    simp [pyExitRecordWriter, pyExitMTWriter, pyExitMTReader, Except.map]

/-- C9: the code contradicts the claim that a valid name changes the global log
level.  Module import installs the logger at Info; afterwards set_log_level
with the valid name "debug" parses it, calls init_logger, whose try_init fails
because a logger is already installed and whose error is discarded - the call
returns success while the level stays Info, not Debug.  An invalid name does
fail with the descriptive error, leaving the level unchanged. -/
theorem setLogLevel_noop_after_init :
    moduleInit ⟨false, LogLevel.off⟩ = ⟨true, LogLevel.info⟩ ∧
    setLogLevel "debug" (moduleInit ⟨false, LogLevel.off⟩) =
      Except.ok ⟨true, LogLevel.info⟩ ∧
    LogLevel.info ≠ LogLevel.debug ∧
    setLogLevel "verbose" ⟨true, LogLevel.info⟩ =
      Except.error
        "Invalid log level: verbose. Valid levels are: trace, debug, info, warn, error, off" := by
  refine ⟨rfl, rfl, by decide, rfl⟩

/-- C10: constructing a PyRecordWriter truncates.  For every filesystem and
path, after PyRecordWriter::new the file at the path is empty - its previous
records, if any, are gone before any write occurs - other paths are untouched,
and the wrapped writer starts on the empty file; the embedded constructor,
mirroring the source signature, takes only the path (no append option). -/
theorem recordWriter_create_truncates (fs : String → Option DFile) (path q : String) :
    (pyRecordWriterNew path fs).1 path = some [] ∧
    (pyRecordWriterNew path fs).1 q = (if q = path then some [] else fs q) ∧
    (pyRecordWriterNew path fs).2 = newWriterState ∧
    (pyRecordWriterNew path fs).2.file = [] ∧
    (pyRecordWriterNew path fs).2.buffer = [] := by
  refine ⟨?_, rfl, rfl, rfl, rfl⟩
  simp [pyRecordWriterNew]

end Pisky
